import Mathlib

set_option maxHeartbeats 1000000

namespace Ikago

/-!
Shallow embedding of the IkaGo client.

Sources embedded here:
- `src/unnamed/part_000` (package main of the client: `publish`,
  `handleListen`, `handleUpstream`, the upstream reader loop in `open`,
  the parameter verification in `main`);
- `src/internal/pcap/dns.go` (the DNS indicator);
- `src/unnamed/part_001` (package config, only its data shape is needed).

Modelling conventions:
- machine integers are `Nat`/`Int`; byte slices are `List Nat`;
- Go maps keyed by `ip.String()` / `hardwareAddr.String()` are modelled as
  functions keyed by the represented value itself, since `String()` is
  injective on the parsed addresses the client handles;
- library calls that live in this repository but outside `src/`
  (`pcap.CreateEthernetLayer`, `pcap.CreateLoopbackLayer`, `pcap.Serialize`,
  `pcap.SerializeRaw`, `pcap.ParseEmbPacket`, `addr.ParseTCPAddr`) are
  modelled from the spec; each such definition is marked below.  The byte
  parser for inbound frames is passed as an explicit function parameter, so
  theorems quantify over it.
-/

abbrev Byte := Nat

deriving instance DecidableEq for Except

/-- `net.IP`, restricted to the parsed addresses the client handles. -/
inductive IP where
  | v4 (a b c d : Nat)
  | v6 (groups : List Nat)
  deriving DecidableEq

/-- `net.IP.To4`: `some` exactly on IPv4 addresses. -/
def IP.to4 : IP → Option IP
  | .v4 a b c d => some (.v4 a b c d)
  | .v6 _ => none

/-- Rendering used in log and error messages (`%s` of a `net.IP`). -/
def IP.str : IP → String
  | .v4 a b c d =>
      toString a ++ "." ++ toString b ++ "." ++ toString c ++ "." ++ toString d
  | .v6 gs => String.intercalate ":" (gs.map toString)

/-- `net.HardwareAddr` (a byte sequence; `String()` is injective on it). -/
structure HardwareAddr where
  octets : List Nat
  deriving DecidableEq

/-- The part of a `pcap.Device` the embedded code reads. -/
structure Device where
  hardwareAddr : HardwareAddr
  deriving DecidableEq

/-- The part of a `pcap.RawConn` capture handle the embedded code reads:
`LocalDev()` and `IsLoop()`; `id` keeps distinct handles distinguishable. -/
structure RawConn where
  id : Nat
  localDev : Device
  isLoop : Bool
  deriving DecidableEq

/-- `natIndicator` (part_000, lines 34-37). -/
structure NatIndicator where
  srcHardwareAddr : HardwareAddr
  conn : RawConn
  deriving DecidableEq

/-- The `nat` map (part_000, line 104): `map[string]*natIndicator` keyed by
`ip.String()`, modelled as a function keyed by the IP value. -/
abbrev NatMap := IP → Option NatIndicator

/-- `nat[ip.String()] = ni` (a Go map store). -/
def NatMap.upsert (m : NatMap) (ip : IP) (ni : NatIndicator) : NatMap :=
  fun k => if k = ip then some ni else m k

/-- The NAT update of `handleListen` (part_000, lines 859-865): store only
when the key is absent or the stored hardware address differs.  The Go code
compares `String()` renderings of the two hardware addresses, which is the
same as comparing the byte sequences. -/
def natUpsertStep (m : NatMap) (ip : IP) (hw : HardwareAddr) (conn : RawConn) : NatMap :=
  match m ip with
  | some ni => if ni.srcHardwareAddr ≠ hw then NatMap.upsert m ip ⟨hw, conn⟩ else m
  | none => NatMap.upsert m ip ⟨hw, conn⟩

/-- One resource record of the DNS answer section.  In the gopacket view the
`IP` field is non-nil exactly for address records (the source comments the
check `Answers[i].IP != nil` with "type A"). -/
structure DNSAnswer where
  name : String
  ip : Option IP
  deriving DecidableEq

/-- The part of `layers.DNS` the embedded code reads (dns.go). -/
structure DNSLayer where
  qr : Bool
  answers : List DNSAnswer
  deriving DecidableEq

/-- `DNSIndicator.IsResponse` (dns.go, lines 22-24). -/
def DNSLayer.IsResponse (l : DNSLayer) : Bool := l.qr

/-- `DNSIndicator.OverwriteAnswer` (dns.go, lines 26-35): every answer whose
IP field is non-nil gets the replacement address; other answers are kept. -/
def DNSLayer.OverwriteAnswer (l : DNSLayer) (ipv4 : IP) : DNSLayer :=
  { l with answers := l.answers.map fun a =>
      if a.ip.isSome then { a with ip := some ipv4 } else a }

/-- The IPv4 answers collected by `DNSIndicator.Answers` (dns.go,
lines 53-60): the answers whose IP is non-nil and has a `To4` form. -/
def answerIPv4s (answers : List DNSAnswer) : List IP :=
  answers.filterMap fun a =>
    match a.ip with
    | some ip => if (IP.to4 ip).isSome then some ip else none
    | none => none

/-- The name captured at loop index 0 in `DNSIndicator.Answers`; the Go
`var name string` default is the empty string. -/
def firstAnswerName : List DNSAnswer → String
  | [] => ""
  | a :: _ => a.name

/-- `DNSIndicator.Answers` (dns.go, lines 45-63). -/
def DNSLayer.Answers (l : DNSLayer) : String × List IP :=
  (firstAnswerName l.answers, answerIPv4s l.answers)

/-- `layers.ARPRequest` / `layers.ARPReply` operation codes. -/
def arpRequestOp : Nat := 1

def arpReplyOp : Nat := 2

/-- The part of `layers.ARP` the embedded code reads and builds. -/
structure ARPLayer where
  addrType : Nat
  protocol : Nat
  hwAddressSize : Nat
  protAddressSize : Nat
  operation : Nat
  sourceHwAddress : HardwareAddr
  sourceProtAddress : IP
  dstHwAddress : HardwareAddr
  dstProtAddress : IP
  deriving DecidableEq

/-- The link layer of a captured or injected frame. -/
inductive LinkLayer where
  | ethernet (srcMAC dstMAC : HardwareAddr) (ethernetType : Nat)
  | loopback
  | other (typeName : String)
  deriving DecidableEq

/-- The network layer of a captured frame as `handleListen` consumes it:
either an ARP layer, or an IP datagram exposed as source/destination plus
the serialized header (`LayerContents`) and payload (`LayerPayload`). -/
inductive NetworkInfo where
  | arp (l : ARPLayer)
  | ipDatagram (src dst : IP) (contents payload : List Byte)
  deriving DecidableEq

/-- A parsed captured frame (the outcome of `pcap.ParsePacket`, which lives
outside `src/`; the handlers below consume the parsed view). -/
structure PacketIndicator where
  link : LinkLayer
  network : NetworkInfo
  deriving DecidableEq

/-- `indicator.SrcHardwareAddr()`: the link-layer source address; the empty
address stands for the nil value on non-Ethernet frames. -/
def PacketIndicator.srcHardwareAddr (p : PacketIndicator) : HardwareAddr :=
  match p.link with
  | .ethernet s _ _ => s
  | _ => ⟨[]⟩

/-- `udp` or `tcp` transport of the embedded datagram. -/
inductive TransportKind where
  | udp
  | tcp
  deriving DecidableEq

/-- The transport layer of the embedded datagram: header bytes with the
checksum field held separately so checksum recomputation is observable. -/
structure TransportHeader where
  kind : TransportKind
  headerBytes : List Byte
  checksum : Nat
  deriving DecidableEq

/-- RFC 1071 style 16-bit ones-complement sum of a byte sequence. -/
def sum16 : List Nat → Nat
  | [] => 0
  | [a] => a * 256
  | a :: b :: rest => a * 256 + b + sum16 rest

/-- The Internet checksum over a byte sequence. -/
def internetChecksum16 (bs : List Nat) : Nat :=
  let s := sum16 bs
  let s2 := (s % 65536) + (s / 65536)
  let s3 := (s2 % 65536) + (s2 / 65536)
  65535 - (s3 % 65536)

/-- Modelled from the spec: `gopacket` serialization of the DNS layer
(`DNSIndicator.SerializeLayer`, whose encoder lives outside `src/`); any
injective rendering of the view serves the claims. -/
def ipBytes : IP → List Byte
  | .v4 a b c d => [a, b, c, d]
  | .v6 gs => gs

/-- Modelled from the spec: byte rendering of one DNS answer. -/
def answerBytes (a : DNSAnswer) : List Byte :=
  (a.name.toList.map Char.toNat) ++ [0] ++
    (match a.ip with
     | some ip => 1 :: ipBytes ip
     | none => [0])

/-- Modelled from the spec: byte rendering of the DNS layer. -/
def dnsSerialize (l : DNSLayer) : List Byte :=
  (if l.qr then [128] else [0]) ++ l.answers.foldr (fun a acc => answerBytes a ++ acc) []

/-- Modelled from the spec: `pcap.Serialize` with checksum computation
(after `SetNetworkLayerForChecksum`) recomputes the transport checksum over
the IP header context and the transport content (spec 4.2: "recomputing the
transport-layer checksum with the (possibly modified) IP header as
pseudo-header context"). -/
def serializeTransport (pseudo : List Byte) (t : TransportHeader) (payload : List Byte) :
    TransportHeader :=
  { t with checksum := internetChecksum16 (pseudo ++ t.headerBytes ++ payload) }

/-- A frame written to a capture handle, kept structural so the link header
and payload of each write are observable:
`arp` is `pcap.Serialize(link, arp)` from `publish`;
`rawFrame` is `pcap.SerializeRaw(link, contents, payload)`;
`reser` is `pcap.Serialize(link, network, transport, dnsBytes)` with
checksum recomputation. -/
inductive WrittenFrame where
  | arp (link : LinkLayer) (arpLayer : ARPLayer)
  | rawFrame (link : LinkLayer) (payload : List Byte)
  | reser (link : LinkLayer) (ipHeader : List Byte) (transport : TransportHeader)
      (dnsBytes : List Byte)
  deriving DecidableEq

/-- The link header of a written frame. -/
def frameLink : WrittenFrame → LinkLayer
  | .arp l _ => l
  | .rawFrame l _ => l
  | .reser l _ _ _ => l

/-- Whether the checksum carried by a reserialized frame is the checksum of
its own emitted content. -/
def checksumOk : WrittenFrame → Bool
  | .reser _ net t dnsBytes =>
      t.checksum == internetChecksum16 (net ++ t.headerBytes ++ dnsBytes)
  | _ => true

/-- The observable effects of the handlers, in program order:
`upWrite` is `upConn.Write`, `natUpdate` is the store into the `nat` map,
`connWrite` is a write to a capture handle, `reconnect` is
`FakeTCPConn.Reconnect`. -/
inductive Event where
  | upWrite (data : List Byte)
  | natUpdate (ip : IP) (ni : NatIndicator)
  | connWrite (conn : RawConn) (frame : WrittenFrame)
  | reconnect
  deriving DecidableEq

/-- `publish` (part_000, lines 747-823): answer a captured ARP request.
The new ARP layer copies the request sizes, sets the reply operation, takes
`conn.LocalDev().HardwareAddr()` — the capture handle of the request — as
source hardware address, the queried target as source protocol address, and
mirrors the request source into the destination fields; the new link layer
is Ethernet from the same local hardware address to the request source.
After the write, a FakeTCP upstream connection is reconnected. -/
def publish (pkt : PacketIndicator) (conn : RawConn) (upIsFakeTCP : Bool) :
    Except String (List Event) :=
  match pkt.network with
  | .ipDatagram _ _ _ _ => .error "network layer type not support"
  | .arp arpLayer =>
    match pkt.link with
    | .ethernet srcMAC _ etherType =>
        let newARPLayer : ARPLayer :=
          { addrType := arpLayer.addrType
            protocol := arpLayer.protocol
            hwAddressSize := arpLayer.hwAddressSize
            protAddressSize := arpLayer.protAddressSize
            operation := arpReplyOp
            sourceHwAddress := conn.localDev.hardwareAddr
            sourceProtAddress := arpLayer.dstProtAddress
            dstHwAddress := arpLayer.sourceHwAddress
            dstProtAddress := arpLayer.sourceProtAddress }
        let newLinkLayer : LinkLayer :=
          .ethernet conn.localDev.hardwareAddr srcMAC etherType
        .ok (Event.connWrite conn (.arp newLinkLayer newARPLayer)
              :: (if upIsFakeTCP then [Event.reconnect] else []))
    | _ => .error "link layer type not support"

/-- `handleListen` (part_000, lines 825-877): ARP frames go to `publish`;
for any other frame the stripped datagram (`LayerContents ++ LayerPayload`)
is written to the upstream connection first, and only then is the NAT entry
stored (when absent or when the stored hardware address differs).  The
event list records that order. -/
def handleListen (m : NatMap) (pkt : PacketIndicator) (conn : RawConn)
    (upIsFakeTCP : Bool) : Except String (List Event × NatMap) :=
  match pkt.network with
  | .arp _ =>
      match publish pkt conn upIsFakeTCP with
      | .error e => .error ("publish: " ++ e)
      | .ok evs => .ok (evs, m)
  | .ipDatagram src _ contents payload =>
      let hardwareAddr := pkt.srcHardwareAddr
      let data := contents ++ payload
      match m src with
      | some ni =>
          if ni.srcHardwareAddr ≠ hardwareAddr then
            .ok ([Event.upWrite data, Event.natUpdate src ⟨hardwareAddr, conn⟩],
                 NatMap.upsert m src ⟨hardwareAddr, conn⟩)
          else .ok ([Event.upWrite data], m)
      | none =>
          .ok ([Event.upWrite data, Event.natUpdate src ⟨hardwareAddr, conn⟩],
               NatMap.upsert m src ⟨hardwareAddr, conn⟩)

/-- The event trace of a `handleListen` run. -/
def listenTrace : Except String (List Event × NatMap) → Option (List Event)
  | .ok (evs, _) => some evs
  | .error _ => none

/-- The NAT map after a `handleListen` run. -/
def listenNatMap : Except String (List Event × NatMap) → Option NatMap
  | .ok (_, m2) => some m2
  | .error _ => none

/-- The source hardware address of the ARP reply written by `publish`. -/
def arpReplySrcHw : Except String (List Event) → Option HardwareAddr
  | .ok (Event.connWrite _ (WrittenFrame.arp _ a) :: _) => some a.sourceHwAddress
  | _ => none

/-- Whether, in an event trace, a NAT update occurs before the first write
to the upstream transport (the order the spec asserts for outbound
handling). -/
def natUpdateBeforeUpWrite : List Event → Bool
  | [] => true
  | Event.natUpdate _ _ :: _ => true
  | Event.upWrite _ :: _ => false
  | _ :: rest => natUpdateBeforeUpWrite rest

/-- The parsed view of an embedded (tunneled) IP datagram, the outcome of
`pcap.ParseEmbPacket` (which lives outside `src/`): endpoints, the
serialized IP header (`LayerContents`), the rest of the datagram
(`NetworkPayload`), the transport layer when UDP or TCP, and the DNS
sub-view when present. -/
structure EmbIndicator where
  srcIP : IP
  dstIP : IP
  networkContents : List Byte
  networkPayload : List Byte
  transport : Option TransportHeader
  dns : Option DNSLayer
  deriving DecidableEq

/-- The hard-coded replacement address `net.IPv4(192, 168, 123, 164)`
(part_000, line 935). -/
def dnsRewriteTarget : IP := IP.v4 192 168 123 164

/-- The DNS rewrite condition of `handleUpstream` (part_000, lines
931-934): a DNS response whose first answer name is one of the two
hard-coded hostnames. -/
def rewriteApplies (emb : EmbIndicator) : Bool :=
  match emb.dns with
  | some d =>
      d.IsResponse &&
        ((d.Answers).1 == "api.twitter.com" || (d.Answers).1 == "www.facebook.com")
  | none => false

/-- The in-place `OverwriteAnswer` mutation of the embedded indicator
(part_000, line 935), as a functional update. -/
def overwriteStep (emb : EmbIndicator) : EmbIndicator :=
  if rewriteApplies emb then
    { emb with dns := emb.dns.map fun d => d.OverwriteAnswer dnsRewriteTarget }
  else emb

/-- Modelled from the spec: `pcap.CreateEthernetLayer` (outside `src/`)
fills the EtherType from the network layer family. -/
def etherTypeOf : IP → Nat
  | .v4 _ _ _ _ => 2048
  | .v6 _ => 34525

/-- The link layer `handleUpstream` builds (part_000, lines 907-925):
Loopback for loopback handles, otherwise Ethernet from the handle local
hardware address to the stored NAT hardware address
(`pcap.CreateLoopbackLayer` / `pcap.CreateEthernetLayer`, modelled from the
spec since they live outside `src/`). -/
def newLinkLayerFor (ni : NatIndicator) (emb : EmbIndicator) : LinkLayer :=
  if ni.conn.isLoop then .loopback
  else .ethernet ni.conn.localDev.hardwareAddr ni.srcHardwareAddr (etherTypeOf emb.dstIP)

/-- The frame `handleUpstream` writes (part_000, lines 927-947): the raw
reassembly of the unchanged datagram, except that on the DNS rewrite path
the packet is reserialized from the overwritten DNS view with transport
checksum recomputation.  The fallback arm of the inner match is unreachable
in practice: a DNS sub-view only parses under a UDP or TCP transport. -/
def upstreamFrame (ni : NatIndicator) (emb : EmbIndicator) : WrittenFrame :=
  let link := newLinkLayerFor ni emb
  if rewriteApplies emb then
    match (overwriteStep emb).dns, (overwriteStep emb).transport with
    | some d, some t =>
        .reser link emb.networkContents
          (serializeTransport emb.networkContents t (dnsSerialize d)) (dnsSerialize d)
    | _, _ => .rawFrame link (emb.networkContents ++ emb.networkPayload)
  else .rawFrame link (emb.networkContents ++ emb.networkPayload)

/-- The `dns` record table (part_000, line 110): `map[string]string` keyed
by `ip.String()`, modelled as a function keyed by the IP value. -/
def recordAll (m : IP → Option String) (ips : List IP) (name : String) :
    IP → Option String :=
  ips.foldl (fun acc ip => fun k => if k = ip then some name else acc k) m

/-- The shared mutable state `handleUpstream` touches: the NAT map (read)
and the DNS record table (written). -/
structure UpstreamState where
  nat : NatMap
  dns : IP → Option String

/-- The DNS recording step of `handleUpstream` (part_000, lines 963-976),
applied to the possibly overwritten indicator: for a response with a
non-empty first name and at least one IPv4 answer, every answer address is
mapped to the name. -/
def recordDNSState (st : UpstreamState) (emb : EmbIndicator) : UpstreamState :=
  match emb.dns with
  | some d =>
      if d.IsResponse then
        if (d.Answers).1 ≠ "" ∧ 0 < (d.Answers).2.length then
          { st with dns := recordAll st.dns (d.Answers).2 (d.Answers).1 }
        else st
      else st
  | none => st

/-- `handleUpstream` (part_000, lines 879-982).  An empty payload returns
success at once (lines 887-891; the "empty payload" error is commented
out).  Then the embedded packet is parsed (`parseEmb` stands for
`pcap.ParseEmbPacket`, outside `src/`), the NAT table is consulted by
destination IP — a miss is the "missing nat" error — and one frame is
written to the stored handle; finally DNS responses are recorded into the
`dns` table from the (possibly overwritten) answers. -/
def handleUpstream (parseEmb : List Byte → Except String EmbIndicator)
    (st : UpstreamState) (contents : List Byte) :
    Except String (List Event × UpstreamState) :=
  if contents.length ≤ 0 then .ok ([], st)
  else
    match parseEmb contents with
    | .error e => .error ("parse embedded packet: " ++ e)
    | .ok emb =>
        match st.nat emb.dstIP with
        | none => .error ("missing nat to " ++ IP.str emb.dstIP)
        | some ni =>
            .ok ([Event.connWrite ni.conn (upstreamFrame ni emb)],
                 recordDNSState st (overwriteStep emb))

/-- One delivery from the upstream transport to the reader loop. -/
inductive ReadResult where
  | bytes (data : List Byte)
  | readErr (isEOF : Bool)

/-- What the reader loop does after one delivery. -/
inductive LoopAction where
  | exitNormal
  | fatalExit
  | continueLoop (st : UpstreamState) (written : List Event) (loggedError : Bool)

/-- One iteration of the upstream reader loop in `open` (part_000, lines
709-729): a read error exits quietly when closed, is fatal on EOF, and is
otherwise logged; a `handleUpstream` error is logged and the loop
continues with unchanged state. -/
def upstreamLoopStep (closedFlag : Bool)
    (parseEmb : List Byte → Except String EmbIndicator)
    (st : UpstreamState) (r : ReadResult) : LoopAction :=
  match r with
  | .readErr isEOF =>
      if closedFlag then .exitNormal
      else if isEOF then .fatalExit
      else .continueLoop st [] true
  | .bytes data =>
      match handleUpstream parseEmb st data with
      | .error _ => .continueLoop st [] true
      | .ok (evs, st2) => .continueLoop st2 evs false

/-- The upstream port randomization loop of `main` (part_000, lines
296-302): while the port is 0 or equals the monitor port, draw
`49152 + Intn(16384)`.  The draw list models the random source; each Go
draw lies in `[0, 16384)`, hence the `% 16384`. -/
def randomizeUpPort (monitor : Int) : List Nat → Int → Option Int
  | [], port => if port = 0 ∨ port = monitor then none else some port
  | d :: rest, port =>
      if port = 0 ∨ port = monitor then
        randomizeUpPort monitor rest (49152 + (d : Int) % 16384)
      else some port

/-- The `kcp-tuning` knobs validated by `main` (part_000, lines 267-290). -/
structure KCPCfg where
  mtu : Int
  sendWindow : Int
  recvWindow : Int
  dataShard : Int
  parityShard : Int
  interval : Int
  resend : Int
  nc : Int
  deriving DecidableEq

/-- The configuration fields `main` validates (part_001 `Config`, reduced
to the fields the embedded validation reads). -/
structure GoConfig where
  sources : List String
  server : String
  gateway : String
  publish : String
  monitor : Int
  mtu : Int
  port : Int
  kcp : KCPCfg
  deriving DecidableEq

/-- External inputs of the startup validation: `net.ParseIP` and
`addr.ParseTCPAddr` (the latter lives outside `src/`, modelled from the
spec as host:port parsing), the `pcap.MaxMTU` bound (outside `src/`), and
the random draws for port randomization. -/
structure StartupEnv where
  parseIP : String → Option IP
  parseTCPAddr : String → Option (IP × Int)
  maxMTU : Int
  draws : List Nat

/-- The state `main` has built once the checks through line 332 have run. -/
structure StartupState where
  upPort : Int
  mtu : Int
  sources : List IP
  serverIP : IP
  serverPort : Int
  publishIP : Option (Option IP)
  loggedErrors : List String
  deriving DecidableEq

/-- Outcome of the startup checks: `fatal` is a `log.Fatalln` (non-zero
exit before the tunnel is opened); `proceed` means execution continues past
line 332 towards `open()`. -/
inductive VerifyResult where
  | fatal (msg : String)
  | proceed (st : StartupState)
  deriving DecidableEq

/-- The `log.Fatalln` checks of `main` before port randomization, in
program order (part_000, lines 245-293). -/
def firstFatal (env : StartupEnv) (cfg : GoConfig) : Option String :=
  if cfg.sources.length ≤ 0 then some "Please provide sources by -r addresses."
  else if cfg.server = "" then some "Please provide server by -s address."
  else if cfg.gateway ≠ "" ∧ env.parseIP cfg.gateway = none then
    some ("invalid gateway " ++ cfg.gateway)
  else if cfg.monitor < 0 ∨ cfg.monitor > 65535 then
    some ("monitor port " ++ toString cfg.monitor ++ " out of range")
  else if (cfg.mtu < 576 ∨ cfg.mtu > env.maxMTU) ∧ cfg.mtu ≠ 0 then
    some ("mtu " ++ toString cfg.mtu ++ " out of range")
  else if cfg.kcp.mtu > 1500 then
    some ("kcp mtu " ++ toString cfg.kcp.mtu ++ " out of range")
  else if cfg.kcp.sendWindow ≤ 0 ∨ cfg.kcp.sendWindow > 2147483647 then
    some ("kcp send window " ++ toString cfg.kcp.sendWindow ++ " out of range")
  else if cfg.kcp.recvWindow ≤ 0 ∨ cfg.kcp.recvWindow > 2147483647 then
    some ("kcp receive window " ++ toString cfg.kcp.recvWindow ++ " out of range")
  else if cfg.kcp.dataShard < 0 then
    some ("kcp data shard " ++ toString cfg.kcp.dataShard ++ " out of range")
  else if cfg.kcp.parityShard < 0 then
    some ("kcp parity shard " ++ toString cfg.kcp.parityShard ++ " out of range")
  else if cfg.kcp.interval < 0 then
    some ("kcp interval " ++ toString cfg.kcp.interval ++ " out of range")
  else if cfg.kcp.resend < 0 then
    some ("kcp resend " ++ toString cfg.kcp.resend ++ " out of range")
  else if cfg.kcp.nc < 0 then
    some ("kcp nc " ++ toString cfg.kcp.nc ++ " out of range")
  else if cfg.port < 0 ∨ cfg.port > 65535 then
    some ("upstream port " ++ toString cfg.port ++ " out of range")
  else none

/-- The source parsing loop of `main` (part_000, lines 306-312): the first
string `net.ParseIP` rejects is fatal. -/
def parseSources (p : String → Option IP) : List String → String ⊕ List IP
  | [] => .inr []
  | s :: rest =>
      match p s with
      | none => .inl s
      | some ip =>
          match parseSources p rest with
          | .inl bad => .inl bad
          | .inr ips => .inr (ip :: ips)

/-- The startup validation of `main` through line 332, in program order:
the fatal checks, port randomization (`none` when the loop has not finished
within the modeled draws), source parsing, server parsing, and the publish
address — whose parse failure is only `log.Errorln` (line 326): the error
is recorded and execution continues, with the publish pointer set around a
nil IP. -/
def verifyAndPrepare (env : StartupEnv) (cfg : GoConfig) : Option VerifyResult :=
  match firstFatal env cfg with
  | some m => some (.fatal m)
  | none =>
    match (if cfg.port = 0 then randomizeUpPort cfg.monitor env.draws 0 else some cfg.port) with
    | none => none
    | some port =>
      match parseSources env.parseIP cfg.sources with
      | .inl bad => some (.fatal ("invalid source " ++ bad))
      | .inr srcs =>
        match env.parseTCPAddr cfg.server with
        | none => some (.fatal ("parse server " ++ cfg.server))
        | some sv =>
          if cfg.publish ≠ "" then
            match env.parseIP cfg.publish with
            | none => some (.proceed
                { upPort := port
                  mtu := if cfg.mtu = 0 then env.maxMTU else cfg.mtu
                  sources := srcs
                  serverIP := sv.1
                  serverPort := sv.2
                  publishIP := some none
                  loggedErrors := ["invalid publish " ++ cfg.publish] })
            | some ip => some (.proceed
                { upPort := port
                  mtu := if cfg.mtu = 0 then env.maxMTU else cfg.mtu
                  sources := srcs
                  serverIP := sv.1
                  serverPort := sv.2
                  publishIP := some (some ip)
                  loggedErrors := [] })
          else some (.proceed
              { upPort := port
                mtu := if cfg.mtu = 0 then env.maxMTU else cfg.mtu
                sources := srcs
                serverIP := sv.1
                serverPort := sv.2
                publishIP := none
                loggedErrors := [] })

/-- Whether the startup outcome is a fatal exit. -/
def isFatal : Option VerifyResult → Bool
  | some (.fatal _) => true
  | _ => false

/-! Concrete values used by the witnesses and counterexamples. -/

def macAA : HardwareAddr := ⟨[170, 170, 170, 170, 170, 170]⟩

def macBB : HardwareAddr := ⟨[187, 187, 187, 187, 187, 187]⟩

def upDev0 : Device := ⟨⟨[0, 1, 2, 3, 4, 5]⟩⟩

def listenDev0 : Device := ⟨⟨[6, 7, 8, 9, 10, 11]⟩⟩

def conn0 : RawConn := ⟨0, listenDev0, false⟩

def publishIP0 : IP := IP.v4 10 0 0 1

def arpReq0 : ARPLayer :=
  { addrType := 1, protocol := 2048, hwAddressSize := 6, protAddressSize := 4
    operation := arpRequestOp, sourceHwAddress := macBB
    sourceProtAddress := IP.v4 10 0 0 2, dstHwAddress := ⟨[0, 0, 0, 0, 0, 0]⟩
    dstProtAddress := publishIP0 }

def pktArp0 : PacketIndicator :=
  ⟨.ethernet macBB ⟨[255, 255, 255, 255, 255, 255]⟩ 2054, .arp arpReq0⟩

def pktIp0 : PacketIndicator :=
  ⟨.ethernet macAA ⟨[1, 1, 1, 1, 1, 1]⟩ 2048,
   .ipDatagram (IP.v4 10 0 0 2) (IP.v4 8 8 8 8) [69, 0, 0, 41] [6, 1, 2, 3]⟩

def natEmpty : NatMap := fun _ => none

def dnsEmpty : IP → Option String := fun _ => none

def st0 : UpstreamState := ⟨natEmpty, dnsEmpty⟩

def ni0 : NatIndicator := ⟨macAA, conn0⟩

def nat1 : NatMap := NatMap.upsert natEmpty (IP.v4 10 0 0 2) ni0

def st1 : UpstreamState := ⟨nat1, dnsEmpty⟩

def emb0 : EmbIndicator :=
  { srcIP := IP.v4 8 8 8 8, dstIP := IP.v4 10 0 0 2
    networkContents := [69, 0, 0, 41], networkPayload := [6, 9, 9]
    transport := none, dns := none }

def c0 : List Byte := [69, 0, 0, 41, 6, 9, 9]

def dnsAns1 : DNSAnswer := ⟨"api.twitter.com", some (IP.v4 104 244 42 1)⟩

def dnsLayer1 : DNSLayer := ⟨true, [dnsAns1, ⟨"api.twitter.com", none⟩]⟩

def th1 : TransportHeader := ⟨.udp, [0, 53, 0, 99], 0⟩

def emb1 : EmbIndicator :=
  { srcIP := IP.v4 9 9 9 9, dstIP := IP.v4 10 0 0 2
    networkContents := [69, 0, 0, 60], networkPayload := []
    transport := some th1, dns := some dnsLayer1 }

def c1 : List Byte := [69, 9, 9]

def parseEmbEx : List Byte → Except String EmbIndicator := fun bs =>
  if bs = c0 then .ok emb0
  else if bs = c1 then .ok emb1
  else .error "cannot decode"

def parseIPEx : String → Option IP := fun s =>
  if s = "10.0.0.2" then some (IP.v4 10 0 0 2)
  else if s = "10.0.0.1" then some publishIP0
  else none

def parseTCPAddrEx : String → Option (IP × Int) := fun s =>
  if s = "1.2.3.4:7" then some (IP.v4 1 2 3 4, 7) else none

def env0 : StartupEnv := ⟨parseIPEx, parseTCPAddrEx, 1500, [5]⟩

def kcpDefault : KCPCfg := ⟨1400, 32, 32, 10, 3, 0, 0, 0⟩

/-- Configuration whose publish address is unparsable and everything else
is valid. -/
def cfgBadPublish : GoConfig :=
  ⟨["10.0.0.2"], "1.2.3.4:7", "", "999.999", 0, 0, 5000, kcpDefault⟩

/-- Configuration whose gateway address is unparsable. -/
def cfgBadGateway : GoConfig :=
  ⟨["10.0.0.2"], "1.2.3.4:7", "999.999", "", 0, 0, 5000, kcpDefault⟩

/-! Helper lemmas. -/

lemma length_pos_ne_nil {α : Type} {l : List α} (h : l ≠ []) : ¬ l.length ≤ 0 := by
  cases l with
  | nil => exact absurd rfl h
  | cons a t => simp

lemma handleUpstream_hit (parseEmb : List Byte → Except String EmbIndicator)
    (st : UpstreamState) (contents : List Byte) (emb : EmbIndicator) (ni : NatIndicator)
    (hc : contents ≠ []) (hp : parseEmb contents = .ok emb)
    (hn : st.nat emb.dstIP = some ni) :
    handleUpstream parseEmb st contents =
      .ok ([Event.connWrite ni.conn (upstreamFrame ni emb)],
           recordDNSState st (overwriteStep emb)) := by
  have hlen := length_pos_ne_nil hc
  simp [handleUpstream, hlen, hp, hn]

lemma handleUpstream_miss (parseEmb : List Byte → Except String EmbIndicator)
    (st : UpstreamState) (contents : List Byte) (emb : EmbIndicator)
    (hc : contents ≠ []) (hp : parseEmb contents = .ok emb)
    (hn : st.nat emb.dstIP = none) :
    handleUpstream parseEmb st contents = .error ("missing nat to " ++ IP.str emb.dstIP) := by
  have hlen := length_pos_ne_nil hc
  simp [handleUpstream, hlen, hp, hn]

lemma recordAll_apply (ips : List IP) (m : IP → Option String) (name : String) (x : IP) :
    recordAll m ips name x = if x ∈ ips then some name else m x := by
  induction ips generalizing m with
  | nil => simp [recordAll]
  | cons ip rest ih =>
      show recordAll (fun k => if k = ip then some name else m k) rest name x = _
      rw [ih]
      by_cases hx : x ∈ rest
      · simp [hx]
      · by_cases he : x = ip <;> simp [hx, he]

lemma firstAnswerName_overwrite (as : List DNSAnswer) (r : IP) :
    firstAnswerName (as.map fun a => if a.ip.isSome then { a with ip := some r } else a)
      = firstAnswerName as := by
  cases as with
  | nil => rfl
  | cons a t => by_cases h : a.ip.isSome <;> simp [firstAnswerName, h]

lemma answerIPv4s_overwrite (as : List DNSAnswer) (a b c d : Nat) :
    answerIPv4s
        (as.map fun x => if x.ip.isSome then { x with ip := some (IP.v4 a b c d) } else x)
      = List.replicate (as.countP fun x => x.ip.isSome) (IP.v4 a b c d) := by
  induction as with
  | nil => rfl
  | cons hd tl ih =>
      cases h : hd.ip with
      | none =>
          simp only [List.map_cons, answerIPv4s, List.filterMap_cons, List.countP_cons, h,
            Option.isSome_none, Bool.false_eq_true, if_false]
          simpa [answerIPv4s, h] using ih
      | some ip =>
          simp only [List.map_cons, answerIPv4s, List.filterMap_cons, List.countP_cons, h,
            Option.isSome_some, if_true]
          simpa [answerIPv4s, IP.to4, List.replicate_succ] using ih

lemma rewriteApplies_some (emb : EmbIndicator) (d : DNSLayer)
    (hd : emb.dns = some d) (hr : rewriteApplies emb = true) :
    d.IsResponse = true ∧
      ((d.Answers).1 = "api.twitter.com" ∨ (d.Answers).1 = "www.facebook.com") := by
  unfold rewriteApplies at hr
  rw [hd] at hr
  simp only [Bool.and_eq_true, Bool.or_eq_true, beq_iff_eq] at hr
  exact hr

lemma parseSources_inr (p : String → Option IP) (srcs : List String) (ips : List IP)
    (h : parseSources p srcs = .inr ips) : ∀ s ∈ srcs, p s ≠ none := by
  induction srcs generalizing ips with
  | nil => intro s hs; cases hs
  | cons a t ih =>
      intro s hs
      unfold parseSources at h
      cases hp : p a with
      | none => rw [hp] at h; simp at h
      | some ip =>
          rw [hp] at h
          cases ht : parseSources p t with
          | inl bad => rw [ht] at h; simp at h
          | inr ips2 =>
              rcases List.mem_cons.mp hs with rfl | hmem
              · rw [hp]; simp
              · exact ih ips2 ht s hmem

lemma firstFatal_gateway (env : StartupEnv) (cfg : GoConfig)
    (h1 : cfg.gateway ≠ "") (h2 : env.parseIP cfg.gateway = none) :
    ∃ m, firstFatal env cfg = some m := by
  unfold firstFatal
  by_cases hs : cfg.sources.length ≤ 0
  · rw [if_pos hs]; exact ⟨_, rfl⟩
  · by_cases hv : cfg.server = ""
    · rw [if_neg hs, if_pos hv]; exact ⟨_, rfl⟩
    · rw [if_neg hs, if_neg hv, if_pos ⟨h1, h2⟩]; exact ⟨_, rfl⟩

lemma randomizeUpPort_sound (monitor : Int) (draws : List Nat) (port result : Int)
    (hport : port = 0 ∨ (49152 ≤ port ∧ port ≤ 65535))
    (h : randomizeUpPort monitor draws port = some result) :
    49152 ≤ result ∧ result ≤ 65535 ∧ result ≠ monitor := by
  induction draws generalizing port with
  | nil =>
      unfold randomizeUpPort at h
      split at h
      · exact Option.noConfusion h
      · rename_i hcond
        rw [Option.some.injEq] at h
        subst h
        push_neg at hcond
        rcases hport with rfl | hrange
        · exact absurd rfl hcond.1
        · exact ⟨hrange.1, hrange.2, hcond.2⟩
  | cons d rest ih =>
      unfold randomizeUpPort at h
      split at h
      · refine ih (49152 + (d : Int) % 16384) (Or.inr ⟨by omega, by omega⟩) h
      · rename_i hcond
        rw [Option.some.injEq] at h
        subst h
        push_neg at hcond
        rcases hport with rfl | hrange
        · exact absurd rfl hcond.1
        · exact ⟨hrange.1, hrange.2, hcond.2⟩

/-! Claim theorems. -/

/-- C10: a zero-length delivery from the transport returns success with no
events and unchanged state, for every parser and every state: the handler
neither parses the bytes, nor consults the NAT table, nor writes to a
capture handle, and no parse error is reported. -/
theorem upstream_empty_payload_ok (parseEmb : List Byte → Except String EmbIndicator)
    (st : UpstreamState) :
    handleUpstream parseEmb st [] = .ok ([], st) := rfl

/-- C3: an inbound datagram whose destination IP has no NAT entry yields
the missing-nat error with no write to any capture handle, and the reader
loop of open logs it and continues with unchanged state — the process does
not terminate on it. -/
theorem upstream_nat_miss_drops_and_continues
    (closedFlag : Bool) (parseEmb : List Byte → Except String EmbIndicator)
    (st : UpstreamState) (contents : List Byte) (emb : EmbIndicator)
    (hc : contents ≠ []) (hp : parseEmb contents = .ok emb)
    (hn : st.nat emb.dstIP = none) :
    handleUpstream parseEmb st contents = .error ("missing nat to " ++ IP.str emb.dstIP)
    ∧ upstreamLoopStep closedFlag parseEmb st (.bytes contents) = .continueLoop st [] true := by
  have hmiss := handleUpstream_miss parseEmb st contents emb hc hp hn
  exact ⟨hmiss, by simp [upstreamLoopStep, hmiss]⟩

theorem upstream_nat_miss_drops_and_continues_witness :
    (c0 ≠ [] ∧ parseEmbEx c0 = .ok emb0 ∧ st0.nat emb0.dstIP = none)
    ∧ (handleUpstream parseEmbEx st0 c0 = .error ("missing nat to " ++ IP.str emb0.dstIP)
       ∧ upstreamLoopStep false parseEmbEx st0 (.bytes c0) = .continueLoop st0 [] true) :=
  ⟨⟨by decide, by decide, by decide⟩,
   upstream_nat_miss_drops_and_continues false parseEmbEx st0 c0 emb0
     (by decide) (by decide) (by decide)⟩

/-- C7: with configured upstream port 0, any port the randomization loop of
main settles on lies in [49152, 65535] and differs from the monitor port. -/
theorem random_up_port_in_range (monitor : Int) (draws : List Nat) (result : Int)
    (h : randomizeUpPort monitor draws 0 = some result) :
    49152 ≤ result ∧ result ≤ 65535 ∧ result ≠ monitor :=
  randomizeUpPort_sound monitor draws 0 result (Or.inl rfl) h

theorem random_up_port_in_range_witness :
    randomizeUpPort 8080 [5] 0 = some 49157
    ∧ (49152 ≤ (49157 : Int) ∧ (49157 : Int) ≤ 65535 ∧ (49157 : Int) ≠ 8080) :=
  ⟨by decide, random_up_port_in_range 8080 [5] 49157 (by decide)⟩

/-- C5: the NAT upsert of handleListen is idempotent when the stored triple
equals the observed one, replaces the entry exactly when the key is absent
or the stored hardware address differs from the observed one, and is the
map the non-ARP path of handleListen leaves behind. -/
theorem nat_upsert_idempotent_replace (m : NatMap) (ip : IP) (hw : HardwareAddr)
    (conn : RawConn) :
    (m ip = some ⟨hw, conn⟩ → natUpsertStep m ip hw conn = m)
    ∧ ((m ip = none ∨ ∃ ni, m ip = some ni ∧ ni.srcHardwareAddr ≠ hw) →
        natUpsertStep m ip hw conn = NatMap.upsert m ip ⟨hw, conn⟩)
    ∧ (∀ ni, m ip = some ni → ni.srcHardwareAddr = hw → natUpsertStep m ip hw conn = m)
    ∧ (∀ link dst cs ps ft,
        listenNatMap (handleListen m ⟨link, .ipDatagram ip dst cs ps⟩ conn ft) =
          some (natUpsertStep m ip
            (PacketIndicator.srcHardwareAddr ⟨link, .ipDatagram ip dst cs ps⟩) conn)) := by
  refine ⟨?_, ?_, ?_, ?_⟩
  · intro hm
    unfold natUpsertStep
    rw [hm]
    simp
  · rintro (hm | ⟨ni, hm, hne⟩)
    · unfold natUpsertStep; rw [hm]
    · unfold natUpsertStep; rw [hm]; simp [hne]
  · intro ni hm he
    unfold natUpsertStep; rw [hm]; simp [he]
  · intro link dst cs ps ft
    cases hm : m ip with
    | none => simp [handleListen, natUpsertStep, listenNatMap, hm]
    | some ni =>
        by_cases hne :
            ni.srcHardwareAddr =
              PacketIndicator.srcHardwareAddr ⟨link, .ipDatagram ip dst cs ps⟩
        · simp [handleListen, natUpsertStep, listenNatMap, hm, hne]
        · simp [handleListen, natUpsertStep, listenNatMap, hm, hne]

theorem nat_upsert_idempotent_replace_witness :
    nat1 (IP.v4 10 0 0 2) = some ⟨macAA, conn0⟩
    ∧ natUpsertStep nat1 (IP.v4 10 0 0 2) macAA conn0 = nat1 :=
  ⟨by decide,
   (nat_upsert_idempotent_replace nat1 (IP.v4 10 0 0 2) macAA conn0).1 (by decide)⟩

/-- C2 counterexample: handling the captured frame pktIp0 with an empty NAT
table writes the stripped datagram to the upstream transport first and
records the NAT entry second — no NAT update precedes the transport write,
refuting the claimed order at this input. -/
theorem listen_nat_update_after_write_cex :
    listenTrace (handleListen natEmpty pktIp0 conn0 false) =
      some [Event.upWrite [69, 0, 0, 41, 6, 1, 2, 3],
            Event.natUpdate (IP.v4 10 0 0 2) ⟨macAA, conn0⟩]
    ∧ natUpdateBeforeUpWrite [Event.upWrite [69, 0, 0, 41, 6, 1, 2, 3],
        Event.natUpdate (IP.v4 10 0 0 2) ⟨macAA, conn0⟩] = false := by decide

/-- C2 (amended): on the non-ARP path the stripped datagram is written to
the outbound transport first; the NAT update, when one occurs, follows the
write in program order, so the entry becomes visible only after the
transport write returns. -/
theorem listen_write_precedes_nat_update
    (m : NatMap) (link : LinkLayer) (src dst : IP) (cs ps : List Byte)
    (conn : RawConn) (ft : Bool) :
    ∃ rest m2,
      handleListen m ⟨link, .ipDatagram src dst cs ps⟩ conn ft =
        .ok (Event.upWrite (cs ++ ps) :: rest, m2)
      ∧ natUpdateBeforeUpWrite (Event.upWrite (cs ++ ps) :: rest) = false
      ∧ ∀ e ∈ rest, e = Event.natUpdate src
          ⟨PacketIndicator.srcHardwareAddr ⟨link, .ipDatagram src dst cs ps⟩, conn⟩ := by
  cases hm : m src with
  | none =>
      refine ⟨[Event.natUpdate src
          ⟨PacketIndicator.srcHardwareAddr ⟨link, .ipDatagram src dst cs ps⟩, conn⟩],
        NatMap.upsert m src
          ⟨PacketIndicator.srcHardwareAddr ⟨link, .ipDatagram src dst cs ps⟩, conn⟩,
        ?_, rfl, ?_⟩
      · simp [handleListen, hm]
      · intro e he; simpa using he
  | some ni =>
      by_cases hne :
          ni.srcHardwareAddr =
            PacketIndicator.srcHardwareAddr ⟨link, .ipDatagram src dst cs ps⟩
      · refine ⟨[], m, ?_, rfl, ?_⟩
        · simp [handleListen, hm, hne]
        · intro e he; cases he
      · refine ⟨[Event.natUpdate src
            ⟨PacketIndicator.srcHardwareAddr ⟨link, .ipDatagram src dst cs ps⟩, conn⟩],
          NatMap.upsert m src
            ⟨PacketIndicator.srcHardwareAddr ⟨link, .ipDatagram src dst cs ps⟩, conn⟩,
          ?_, rfl, ?_⟩
        · simp [handleListen, hm, hne]
        · intro e he; simpa using he

theorem listen_write_precedes_nat_update_witness :
    ∃ rest m2,
      handleListen natEmpty
          ⟨.ethernet macAA ⟨[1, 1, 1, 1, 1, 1]⟩ 2048,
           .ipDatagram (IP.v4 10 0 0 2) (IP.v4 8 8 8 8) [69, 0, 0, 41] [6, 1, 2, 3]⟩
          conn0 false =
        .ok (Event.upWrite ([69, 0, 0, 41] ++ [6, 1, 2, 3]) :: rest, m2)
      ∧ natUpdateBeforeUpWrite (Event.upWrite ([69, 0, 0, 41] ++ [6, 1, 2, 3]) :: rest) = false
      ∧ ∀ e ∈ rest, e = Event.natUpdate (IP.v4 10 0 0 2)
          ⟨PacketIndicator.srcHardwareAddr
            ⟨.ethernet macAA ⟨[1, 1, 1, 1, 1, 1]⟩ 2048,
             .ipDatagram (IP.v4 10 0 0 2) (IP.v4 8 8 8 8) [69, 0, 0, 41] [6, 1, 2, 3]⟩, conn0⟩ :=
  listen_write_precedes_nat_update natEmpty (.ethernet macAA ⟨[1, 1, 1, 1, 1, 1]⟩ 2048)
    (IP.v4 10 0 0 2) (IP.v4 8 8 8 8) [69, 0, 0, 41] [6, 1, 2, 3] conn0 false

/-- C1 counterexample: for the captured ARP request pktArp0, whose target
protocol address is the publish address, the source hardware address of the
reply is the MAC of the capture handle local device (listenDev0), which
differs from the MAC of the upstream device (upDev0); publish never reads
the upstream device. -/
theorem publish_upstream_mac_cex :
    arpReq0.dstProtAddress = publishIP0
    ∧ arpReplySrcHw (publish pktArp0 conn0 false) = some listenDev0.hardwareAddr
    ∧ listenDev0.hardwareAddr ≠ upDev0.hardwareAddr := by decide

/-- C1 (amended): the ARP reply written by publish takes its source
hardware address from the local device of the capture handle the request
arrived on — not from the upstream device; its source protocol address is
the queried target, and its destination hardware and protocol addresses
mirror the source fields of the request. -/
theorem publish_reply_uses_capture_mac
    (l : ARPLayer) (s dmac : HardwareAddr) (et : Nat) (conn : RawConn)
    (pubIP : IP) (ft : Bool) (htarget : l.dstProtAddress = pubIP) :
    publish ⟨.ethernet s dmac et, .arp l⟩ conn ft =
      .ok (Event.connWrite conn (WrittenFrame.arp
            (.ethernet conn.localDev.hardwareAddr s et)
            { addrType := l.addrType, protocol := l.protocol
              hwAddressSize := l.hwAddressSize, protAddressSize := l.protAddressSize
              operation := arpReplyOp
              sourceHwAddress := conn.localDev.hardwareAddr
              sourceProtAddress := pubIP
              dstHwAddress := l.sourceHwAddress
              dstProtAddress := l.sourceProtAddress })
          :: (if ft then [Event.reconnect] else [])) := by
  subst htarget
  rfl

theorem publish_reply_uses_capture_mac_witness :
    arpReq0.dstProtAddress = publishIP0
    ∧ publish ⟨.ethernet macBB ⟨[255, 255, 255, 255, 255, 255]⟩ 2054, .arp arpReq0⟩
          conn0 false =
        .ok (Event.connWrite conn0 (WrittenFrame.arp
              (.ethernet conn0.localDev.hardwareAddr macBB 2054)
              { addrType := arpReq0.addrType, protocol := arpReq0.protocol
                hwAddressSize := arpReq0.hwAddressSize
                protAddressSize := arpReq0.protAddressSize
                operation := arpReplyOp
                sourceHwAddress := conn0.localDev.hardwareAddr
                sourceProtAddress := publishIP0
                dstHwAddress := arpReq0.sourceHwAddress
                dstProtAddress := arpReq0.sourceProtAddress })
            :: (if false then [Event.reconnect] else [])) :=
  ⟨by decide,
   publish_reply_uses_capture_mac arpReq0 macBB ⟨[255, 255, 255, 255, 255, 255]⟩ 2054
     conn0 publishIP0 false (by decide)⟩

/-- C4: an inbound datagram whose destination IP has NAT entry (mac,
handle) is written to that handle behind a Loopback header when the handle
is loopback and otherwise an Ethernet header from the handle local MAC to
the stored mac; the payload is the datagram itself, except on the DNS
rewrite path, where the overwritten DNS view is reserialized with transport
checksum recomputation. -/
theorem upstream_reinjection_framing
    (parseEmb : List Byte → Except String EmbIndicator) (st : UpstreamState)
    (contents : List Byte) (emb : EmbIndicator) (ni : NatIndicator)
    (hc : contents ≠ []) (hp : parseEmb contents = .ok emb)
    (hn : st.nat emb.dstIP = some ni)
    (hD : emb.networkContents ++ emb.networkPayload = contents) :
    ∃ frame st2,
      handleUpstream parseEmb st contents = .ok ([Event.connWrite ni.conn frame], st2)
      ∧ frameLink frame =
          (if ni.conn.isLoop then LinkLayer.loopback
           else LinkLayer.ethernet ni.conn.localDev.hardwareAddr ni.srcHardwareAddr
             (etherTypeOf emb.dstIP))
      ∧ (rewriteApplies emb = false →
          frame = WrittenFrame.rawFrame (newLinkLayerFor ni emb) contents)
      ∧ (rewriteApplies emb = true → ∀ d t, emb.dns = some d → emb.transport = some t →
          frame = WrittenFrame.reser (newLinkLayerFor ni emb) emb.networkContents
            (serializeTransport emb.networkContents t
              (dnsSerialize (d.OverwriteAnswer dnsRewriteTarget)))
            (dnsSerialize (d.OverwriteAnswer dnsRewriteTarget))) := by
  refine ⟨upstreamFrame ni emb, recordDNSState st (overwriteStep emb),
    handleUpstream_hit parseEmb st contents emb ni hc hp hn, ?_, ?_, ?_⟩
  · by_cases hrw : rewriteApplies emb
    · cases hdns : (overwriteStep emb).dns <;> cases htr : (overwriteStep emb).transport <;>
        simp [upstreamFrame, hrw, hdns, htr, frameLink, newLinkLayerFor]
    · simp [upstreamFrame, hrw, frameLink, newLinkLayerFor]
  · intro hrw
    simp [upstreamFrame, hrw, hD, newLinkLayerFor]
  · intro hrw d t hd ht
    have hod : (overwriteStep emb).dns = some (d.OverwriteAnswer dnsRewriteTarget) := by
      simp [overwriteStep, hrw, hd]
    have hot : (overwriteStep emb).transport = some t := by
      simp [overwriteStep, hrw, ht]
    simp [upstreamFrame, hrw, hod, hot]

theorem upstream_reinjection_framing_witness :
    (c0 ≠ [] ∧ parseEmbEx c0 = .ok emb0 ∧ st1.nat emb0.dstIP = some ni0
     ∧ emb0.networkContents ++ emb0.networkPayload = c0)
    ∧ ∃ frame st2,
        handleUpstream parseEmbEx st1 c0 = .ok ([Event.connWrite ni0.conn frame], st2)
        ∧ frameLink frame =
            (if ni0.conn.isLoop then LinkLayer.loopback
             else LinkLayer.ethernet ni0.conn.localDev.hardwareAddr ni0.srcHardwareAddr
               (etherTypeOf emb0.dstIP))
        ∧ (rewriteApplies emb0 = false →
            frame = WrittenFrame.rawFrame (newLinkLayerFor ni0 emb0) c0)
        ∧ (rewriteApplies emb0 = true → ∀ d t, emb0.dns = some d → emb0.transport = some t →
            frame = WrittenFrame.reser (newLinkLayerFor ni0 emb0) emb0.networkContents
              (serializeTransport emb0.networkContents t
                (dnsSerialize (d.OverwriteAnswer dnsRewriteTarget)))
              (dnsSerialize (d.OverwriteAnswer dnsRewriteTarget))) :=
  ⟨⟨by decide, by decide, by decide, by decide⟩,
   upstream_reinjection_framing parseEmbEx st1 c0 emb0 ni0
     (by decide) (by decide) (by decide) (by decide)⟩

/-- C6: OverwriteAnswer sets the IP of every address answer to the
replacement and changes no other answer; on the rewrite path of
handleUpstream the emitted frame carries the overwritten DNS view — every
address answer holds the replacement — with the transport checksum
recomputed over the emitted content. -/
theorem dns_overwrite_every_a_answer
    (l : DNSLayer) (repl : IP)
    (parseEmb : List Byte → Except String EmbIndicator) (st : UpstreamState)
    (contents : List Byte) (emb : EmbIndicator) (ni : NatIndicator)
    (d : DNSLayer) (t : TransportHeader)
    (hc : contents ≠ []) (hp : parseEmb contents = .ok emb)
    (hn : st.nat emb.dstIP = some ni)
    (hd : emb.dns = some d) (ht : emb.transport = some t)
    (hr : rewriteApplies emb = true) :
    ((l.OverwriteAnswer repl).answers.length = l.answers.length
     ∧ ∀ (i : Nat) (a : DNSAnswer), l.answers[i]? = some a →
        (a.ip.isSome = true →
          (l.OverwriteAnswer repl).answers[i]? = some { a with ip := some repl })
        ∧ (a.ip = none → (l.OverwriteAnswer repl).answers[i]? = some a))
    ∧ ∃ st2,
        handleUpstream parseEmb st contents =
          .ok ([Event.connWrite ni.conn (WrittenFrame.reser (newLinkLayerFor ni emb)
                 emb.networkContents
                 (serializeTransport emb.networkContents t
                   (dnsSerialize (d.OverwriteAnswer dnsRewriteTarget)))
                 (dnsSerialize (d.OverwriteAnswer dnsRewriteTarget)))], st2)
        ∧ (∀ a2 ∈ (d.OverwriteAnswer dnsRewriteTarget).answers,
             a2.ip.isSome = true → a2.ip = some dnsRewriteTarget)
        ∧ checksumOk (WrittenFrame.reser (newLinkLayerFor ni emb)
             emb.networkContents
             (serializeTransport emb.networkContents t
               (dnsSerialize (d.OverwriteAnswer dnsRewriteTarget)))
             (dnsSerialize (d.OverwriteAnswer dnsRewriteTarget))) = true := by
  refine ⟨⟨?_, ?_⟩, recordDNSState st (overwriteStep emb), ?_, ?_, ?_⟩
  · simp [DNSLayer.OverwriteAnswer]
  · intro i a hi
    constructor
    · intro hsome
      simp [DNSLayer.OverwriteAnswer, List.getElem?_map, hi, hsome]
    · intro hnone
      simp [DNSLayer.OverwriteAnswer, List.getElem?_map, hi, hnone]
  · have hod : (overwriteStep emb).dns = some (d.OverwriteAnswer dnsRewriteTarget) := by
      simp [overwriteStep, hr, hd]
    have hot : (overwriteStep emb).transport = some t := by
      simp [overwriteStep, hr, ht]
    have hframe : upstreamFrame ni emb = WrittenFrame.reser (newLinkLayerFor ni emb)
        emb.networkContents
        (serializeTransport emb.networkContents t
          (dnsSerialize (d.OverwriteAnswer dnsRewriteTarget)))
        (dnsSerialize (d.OverwriteAnswer dnsRewriteTarget)) := by
      simp [upstreamFrame, hr, hod, hot]
    rw [handleUpstream_hit parseEmb st contents emb ni hc hp hn, hframe]
  · intro a2 ha2 hsome
    simp only [DNSLayer.OverwriteAnswer, List.mem_map] at ha2
    obtain ⟨a, _, rfl⟩ := ha2
    by_cases h : a.ip.isSome
    · simp [h]
    · simp [h] at hsome
  · simp [checksumOk, serializeTransport]

theorem dns_overwrite_every_a_answer_witness :
    (c1 ≠ [] ∧ parseEmbEx c1 = .ok emb1 ∧ st1.nat emb1.dstIP = some ni0
     ∧ emb1.dns = some dnsLayer1 ∧ emb1.transport = some th1
     ∧ rewriteApplies emb1 = true)
    ∧ (((dnsLayer1.OverwriteAnswer (IP.v4 1 1 1 1)).answers.length =
          dnsLayer1.answers.length
        ∧ ∀ (i : Nat) (a : DNSAnswer), dnsLayer1.answers[i]? = some a →
            (a.ip.isSome = true →
              (dnsLayer1.OverwriteAnswer (IP.v4 1 1 1 1)).answers[i]? =
                some { a with ip := some (IP.v4 1 1 1 1) })
            ∧ (a.ip = none →
                (dnsLayer1.OverwriteAnswer (IP.v4 1 1 1 1)).answers[i]? = some a))
       ∧ ∃ st2,
           handleUpstream parseEmbEx st1 c1 =
             .ok ([Event.connWrite ni0.conn (WrittenFrame.reser (newLinkLayerFor ni0 emb1)
                    emb1.networkContents
                    (serializeTransport emb1.networkContents th1
                      (dnsSerialize (dnsLayer1.OverwriteAnswer dnsRewriteTarget)))
                    (dnsSerialize (dnsLayer1.OverwriteAnswer dnsRewriteTarget)))], st2)
           ∧ (∀ a2 ∈ (dnsLayer1.OverwriteAnswer dnsRewriteTarget).answers,
                a2.ip.isSome = true → a2.ip = some dnsRewriteTarget)
           ∧ checksumOk (WrittenFrame.reser (newLinkLayerFor ni0 emb1)
                emb1.networkContents
                (serializeTransport emb1.networkContents th1
                  (dnsSerialize (dnsLayer1.OverwriteAnswer dnsRewriteTarget)))
                (dnsSerialize (dnsLayer1.OverwriteAnswer dnsRewriteTarget))) = true) :=
  ⟨⟨by decide, by decide, by decide, by decide, by decide, by decide⟩,
   dns_overwrite_every_a_answer dnsLayer1 (IP.v4 1 1 1 1) parseEmbEx st1 c1 emb1 ni0
     dnsLayer1 th1 (by decide) (by decide) (by decide) (by decide) (by decide) (by decide)⟩

/-- C9: on the rewrite path the DNS record table is written from the
already-overwritten answer list, so the first-answer name is recorded under
the replacement address and under no other address. -/
theorem dns_recorded_under_replacement
    (parseEmb : List Byte → Except String EmbIndicator) (st : UpstreamState)
    (contents : List Byte) (emb : EmbIndicator) (ni : NatIndicator) (d : DNSLayer)
    (hc : contents ≠ []) (hp : parseEmb contents = .ok emb)
    (hn : st.nat emb.dstIP = some ni)
    (hd : emb.dns = some d) (hr : rewriteApplies emb = true)
    (ha : ∃ a ∈ d.answers, a.ip.isSome = true) :
    ∃ evs st2,
      handleUpstream parseEmb st contents = .ok (evs, st2)
      ∧ st2.dns dnsRewriteTarget = some (d.Answers).1
      ∧ ∀ ip2, ip2 ≠ dnsRewriteTarget → st2.dns ip2 = st.dns ip2 := by
  obtain ⟨hresp, hname⟩ := rewriteApplies_some emb d hd hr
  have hod : (overwriteStep emb).dns = some (d.OverwriteAnswer dnsRewriteTarget) := by
    simp [overwriteStep, hr, hd]
  have hfst : ((d.OverwriteAnswer dnsRewriteTarget).Answers).1 = (d.Answers).1 := by
    simp only [DNSLayer.Answers, DNSLayer.OverwriteAnswer]
    exact firstAnswerName_overwrite d.answers dnsRewriteTarget
  have hsnd : ((d.OverwriteAnswer dnsRewriteTarget).Answers).2 =
      List.replicate (d.answers.countP fun x => x.ip.isSome) dnsRewriteTarget := by
    simp only [DNSLayer.Answers, DNSLayer.OverwriteAnswer]
    exact answerIPv4s_overwrite d.answers 192 168 123 164
  have hk : 0 < d.answers.countP fun x => x.ip.isSome := by
    rw [List.countP_pos_iff]
    exact ha
  have hne : (d.Answers).1 ≠ "" := by
    rcases hname with h | h <;> rw [h] <;> decide
  have hresp2 : (d.OverwriteAnswer dnsRewriteTarget).IsResponse = true := by
    simpa [DNSLayer.IsResponse, DNSLayer.OverwriteAnswer] using hresp
  have hcond : ((d.OverwriteAnswer dnsRewriteTarget).Answers).1 ≠ ""
      ∧ 0 < ((d.OverwriteAnswer dnsRewriteTarget).Answers).2.length := by
    constructor
    · rw [hfst]; exact hne
    · rw [hsnd]; simpa using hk
  have hdns2 : (recordDNSState st (overwriteStep emb)).dns =
      recordAll st.dns ((d.OverwriteAnswer dnsRewriteTarget).Answers).2
        ((d.OverwriteAnswer dnsRewriteTarget).Answers).1 := by
    simp only [recordDNSState, hod, hresp2, if_true]
    rw [if_pos hcond]
  refine ⟨_, _, handleUpstream_hit parseEmb st contents emb ni hc hp hn, ?_, ?_⟩
  · show (recordDNSState st (overwriteStep emb)).dns dnsRewriteTarget = some (d.Answers).1
    have hmem : dnsRewriteTarget ∈ ((d.OverwriteAnswer dnsRewriteTarget).Answers).2 := by
      rw [hsnd]
      exact List.mem_replicate.mpr ⟨hk.ne', rfl⟩
    rw [hdns2, recordAll_apply, if_pos hmem, hfst]
  · intro ip2 hip
    show (recordDNSState st (overwriteStep emb)).dns ip2 = st.dns ip2
    have hnm : ip2 ∉ ((d.OverwriteAnswer dnsRewriteTarget).Answers).2 := by
      rw [hsnd]
      intro hmem
      exact hip (List.eq_of_mem_replicate hmem)
    rw [hdns2, recordAll_apply, if_neg hnm]

theorem dns_recorded_under_replacement_witness :
    (c1 ≠ [] ∧ parseEmbEx c1 = .ok emb1 ∧ st1.nat emb1.dstIP = some ni0
     ∧ emb1.dns = some dnsLayer1 ∧ rewriteApplies emb1 = true
     ∧ ∃ a ∈ dnsLayer1.answers, a.ip.isSome = true)
    ∧ ∃ evs st2,
        handleUpstream parseEmbEx st1 c1 = .ok (evs, st2)
        ∧ st2.dns dnsRewriteTarget = some (dnsLayer1.Answers).1
        ∧ ∀ ip2, ip2 ≠ dnsRewriteTarget → st2.dns ip2 = st1.dns ip2 :=
  ⟨⟨by decide, by decide, by decide, by decide, by decide, by decide⟩,
   dns_recorded_under_replacement parseEmbEx st1 c1 emb1 ni0 dnsLayer1
     (by decide) (by decide) (by decide) (by decide) (by decide) (by decide)⟩

/-- C8 counterexample: with every other field valid, an unparsable publish
address does not make startup fatal — validation proceeds past the publish
check and the failure is only a logged error with the publish pointer set
around a nil IP. -/
theorem startup_invalid_publish_cex :
    cfgBadPublish.publish ≠ "" ∧ env0.parseIP cfgBadPublish.publish = none
    ∧ isFatal (verifyAndPrepare env0 cfgBadPublish) = false
    ∧ verifyAndPrepare env0 cfgBadPublish = some (VerifyResult.proceed
        { upPort := 5000, mtu := 1500, sources := [IP.v4 10 0 0 2]
          serverIP := IP.v4 1 2 3 4, serverPort := 7
          publishIP := some none
          loggedErrors := ["invalid publish 999.999"] }) := by decide

/-- C8 (amended): an unparsable source or gateway address makes startup
fatal (non-zero exit before the tunnel is opened); an unparsable publish
address is only logged — validation proceeds with the publish pointer set
around a nil IP. -/
theorem startup_invalid_ip_outcomes (env : StartupEnv) (cfg : GoConfig) (r : VerifyResult)
    (h : verifyAndPrepare env cfg = some r) :
    ((cfg.gateway ≠ "" ∧ env.parseIP cfg.gateway = none) → ∃ m, r = .fatal m)
    ∧ ((∃ s ∈ cfg.sources, env.parseIP s = none) → ∃ m, r = .fatal m)
    ∧ (∀ st2, r = .proceed st2 → cfg.publish ≠ "" → env.parseIP cfg.publish = none →
        st2.loggedErrors = ["invalid publish " ++ cfg.publish]
        ∧ st2.publishIP = some none) := by
  refine ⟨?_, ?_, ?_⟩
  · rintro ⟨h1, h2⟩
    obtain ⟨m, hm⟩ := firstFatal_gateway env cfg h1 h2
    unfold verifyAndPrepare at h
    simp only [hm] at h
    rw [Option.some.injEq] at h
    exact ⟨m, h.symm⟩
  · rintro ⟨s, hs, hps⟩
    unfold verifyAndPrepare at h
    cases hf : firstFatal env cfg with
    | some m =>
        simp only [hf] at h
        rw [Option.some.injEq] at h
        exact ⟨m, h.symm⟩
    | none =>
        simp only [hf] at h
        cases hport : (if cfg.port = 0 then randomizeUpPort cfg.monitor env.draws 0
            else some cfg.port) with
        | none => simp [hport] at h
        | some port =>
            simp only [hport] at h
            cases hsrc : parseSources env.parseIP cfg.sources with
            | inl bad =>
                simp only [hsrc] at h
                rw [Option.some.injEq] at h
                exact ⟨_, h.symm⟩
            | inr ips =>
                exact absurd hps (parseSources_inr env.parseIP cfg.sources ips hsrc s hs)
  · intro st2 hr2 hpub hpip
    subst hr2
    unfold verifyAndPrepare at h
    cases hf : firstFatal env cfg with
    | some m => simp [hf] at h
    | none =>
        simp only [hf] at h
        cases hport : (if cfg.port = 0 then randomizeUpPort cfg.monitor env.draws 0
            else some cfg.port) with
        | none => simp [hport] at h
        | some port =>
            simp only [hport] at h
            cases hsrc : parseSources env.parseIP cfg.sources with
            | inl bad => simp [hsrc] at h
            | inr ips =>
                simp only [hsrc] at h
                cases hsv : env.parseTCPAddr cfg.server with
                | none => simp [hsv] at h
                | some sv =>
                    simp only [hsv] at h
                    rw [if_pos hpub] at h
                    simp only [hpip] at h
                    rw [Option.some.injEq, VerifyResult.proceed.injEq] at h
                    rw [← h]
                    exact ⟨rfl, rfl⟩

theorem startup_invalid_ip_outcomes_witness :
    (verifyAndPrepare env0 cfgBadGateway =
        some (VerifyResult.fatal "invalid gateway 999.999")
     ∧ cfgBadGateway.gateway ≠ "" ∧ env0.parseIP cfgBadGateway.gateway = none)
    ∧ ∃ m, VerifyResult.fatal "invalid gateway 999.999" = VerifyResult.fatal m :=
  ⟨⟨by decide, by decide, by decide⟩,
   (startup_invalid_ip_outcomes env0 cfgBadGateway
     (VerifyResult.fatal "invalid gateway 999.999") (by decide)).1 (by decide)⟩

end Ikago
